import Mathlib

/-!
Shallow embedding of the resume-builder component
(src/app/(main)/resume/_components/resume-builder.jsx).

State held in React hooks is modelled as an explicit `BuilderState` record;
event handlers become functions from that state (plus the outcome of any
network call they perform) to a new state together with observable flags
(whether the network collaborator was reached, which error message was
surfaced).  JavaScript string/array truthiness is modelled by comparison
with `""` / `[]`; an absent object field and the empty string are both
falsy in the source, so absent contact fields are modelled as `""` and
absent response fields as `Option.none`.  Timestamps are `Date.now()`
millisecond values, modelled as `Nat`.
-/

namespace ResumeBuilder

/-- Contact fields of the form (`contactInfo` in the source). -/
structure ContactInfo where
  name : String
  email : String
  mobile : String
  linkedin : String
  twitter : String
deriving DecidableEq, Repr

/-- One experience/education/project entry, per the data model of the spec
(the entry shape is consumed opaquely by the component). -/
structure Entry where
  title : String
  subtitle : String
  startDate : String
  endDate : String
  isCurrent : Bool
  description : String
deriving DecidableEq, Repr

/-- The structured document: the form values watched by the component. -/
structure DocumentState where
  contactInfo : ContactInfo
  summary : String
  skills : String
  experience : List Entry
  education : List Entry
  projects : List Entry
deriving DecidableEq, Repr

def emptyContact : ContactInfo :=
  { name := "", email := "", mobile := "", linkedin := "", twitter := "" }

def emptyDoc : DocumentState :=
  { contactInfo := emptyContact, summary := "", skills := "",
    experience := [], education := [], projects := [] }

/-- Translation of `getContactMarkdown` (resume-builder.jsx lines 176-188):
each non-empty contact field contributes one part; the parts are joined
with a fixed separator under a heading, and an all-empty contact block
contributes the empty string. -/
def getContactMarkdown (c : ContactInfo) : String :=
  let parts : List String :=
    (if c.name ≠ "" then ["**" ++ c.name ++ "**"] else []) ++
    (if c.email ≠ "" then ["📧 " ++ c.email] else []) ++
    (if c.mobile ≠ "" then ["📱 " ++ c.mobile] else []) ++
    (if c.linkedin ≠ "" then ["💼 [LinkedIn](" ++ c.linkedin ++ ")"] else []) ++
    (if c.twitter ≠ "" then ["🐦 [Twitter](" ++ c.twitter ++ ")"] else [])
  if parts.length > 0 then
    "## Contact Information\n\n" ++ String.intercalate " | " parts
  else ""

/-- Modelled from the spec: the helper rendering one entry.  The function
used by the source (imported from a helper module) is not among the
provided sources; per the spec an entry renders its title/subtitle,
a date range whose end is an open-ended token when `isCurrent`, and the
description. -/
def entryToMarkdown (e : Entry) : String :=
  let range :=
    if e.isCurrent then e.startDate ++ " - Present"
    else e.startDate ++ " - " ++ e.endDate
  "### " ++ e.title ++ " @ " ++ e.subtitle ++ "\n\n" ++ range ++ "\n\n" ++
    e.description

/-- Modelled from the spec: the list-level helper used by
`getCombinedContent`.  An empty list contributes the empty string (the
section is omitted entirely); a non-empty list renders a section heading
followed by the entries in list order. -/
def entriesToMarkdown (entries : List Entry) (title : String) : String :=
  if entries = [] then ""
  else
    "## " ++ title ++ "\n\n" ++
      String.intercalate "\n\n" (entries.map entryToMarkdown)

/-- Translation of `getCombinedContent` (lines 190-202): the projection of
the structured document to markdown.  Falsy (empty) section strings are
filtered out before joining with a blank-line separator. -/
def getCombinedContent (d : DocumentState) : String :=
  String.intercalate "\n\n"
    (([getContactMarkdown d.contactInfo,
       if d.summary ≠ "" then "## Professional Summary\n\n" ++ d.summary
       else "",
       if d.skills ≠ "" then "## Skills\n\n" ++ d.skills else "",
       entriesToMarkdown d.experience "Work Experience",
       entriesToMarkdown d.education "Education",
       entriesToMarkdown d.projects "Projects"]).filter (fun s => s != ""))

/-- The two tabs: `edit` is the structured form (STRUCTURED mode), and
`preview` is the markdown editor tab (FREEFORM mode). -/
inductive Tab
  | edit
  | preview
deriving DecidableEq, Repr

/-- The component state relevant to the claims: the structured document,
the displayed markdown (`previewContent`), the active tab, the cooldown
timestamp (`lastEnhancementTime`, ms), and the `initialContent` prop. -/
structure BuilderState where
  doc : DocumentState
  previewContent : String
  activeTab : Tab
  lastEnhancementTime : Nat
  initialContent : String
deriving DecidableEq, Repr

/-- Translation of the effect at lines 136-141: whenever the form values
change (or the tab changes) and the active tab is the form tab, the
displayed text is replaced by a fresh projection, falling back to
`initialContent` when the projection is the empty string. -/
def syncPreviewEffect (s : BuilderState) : BuilderState :=
  if s.activeTab = Tab.edit then
    let newContent := getCombinedContent s.doc
    { s with previewContent :=
        if newContent ≠ "" then newContent else s.initialContent }
  else s

/-- A structured setter for `summary` (`setValue` at line 873) followed by
the preview-sync effect that its form-value change triggers. -/
def setSummary (s : BuilderState) (v : String) : BuilderState :=
  syncPreviewEffect { s with doc := { s.doc with summary := v } }

/-- A structured setter for `skills` (`setValue` at line 907) followed by
the preview-sync effect that its form-value change triggers. -/
def setSkills (s : BuilderState) (v : String) : BuilderState :=
  syncPreviewEffect { s with doc := { s.doc with skills := v } }

/-- Cooldown window in milliseconds (the `60000` at line 336). -/
def W : Nat := 60000

/-- Ceiling of a millisecond quantity in whole seconds
(the `Math.ceil(x / 1000)` at line 337). -/
def ceilSeconds (ms : Nat) : Nat := (ms + 999) / 1000

/-- Outcome of one call to the enhancement endpoint, as observed by the
caller: the fetch rejects, the response is non-ok with a status and body,
or it is ok with a content payload. -/
inductive EnhanceOutcome
  | netError
  | httpError (status : Nat) (body : String)
  | ok (content : String)
deriving DecidableEq, Repr

/-- Result of `improveWithAI`: cooldown rejection carrying the wait time in
seconds (the function returns null after the toast), success carrying the
improved text, or a thrown error carrying its message. -/
inductive ImproveResult
  | busy (waitSeconds : Nat)
  | improved (text : String)
  | failed (msg : String)
deriving DecidableEq, Repr

/-- Observable output of `improveWithAI`: its result, the new value of the
cooldown timestamp, and whether the fetch was issued. -/
structure ImproveOutput where
  result : ImproveResult
  lastEnhancementTime : Nat
  networkCalled : Bool
deriving DecidableEq, Repr

/-- Translation of `improveWithAI` (lines 332-378).  `last` is the current
`lastEnhancementTime`, `now` the `Date.now()` read at entry, `doneAt` the
`Date.now()` read after a successful response (line 371).  Within the
cooldown window the function toasts and returns null without fetching;
otherwise it fetches, maps a 429 to the rate-limit message, rethrows other
failures, and records the success time only on the success path. -/
def improveWithAI (last now doneAt : Nat) (o : EnhanceOutcome) :
    ImproveOutput :=
  if now - last < W then
    { result := ImproveResult.busy (ceilSeconds (W - (now - last)))
      lastEnhancementTime := last
      networkCalled := false }
  else
    match o with
    | EnhanceOutcome.netError =>
        { result := ImproveResult.failed "NetworkError"
          lastEnhancementTime := last
          networkCalled := true }
    | EnhanceOutcome.httpError status body =>
        { result := ImproveResult.failed
            (if status = 429 then
              "Rate limit exceeded. Please wait a minute before trying again."
            else if body = "" then "Failed to improve content" else body)
          lastEnhancementTime := last
          networkCalled := true }
    | EnhanceOutcome.ok content =>
        { result := ImproveResult.improved content
          lastEnhancementTime := doneAt
          networkCalled := true }

/-- Observable output of `handleImproveSummary`: the new component state,
whether the rate limiter (cooldown clock) was consulted, whether the
network was reached, and the surfaced error message, if any. -/
structure ImproveSummaryOutput where
  state : BuilderState
  limiterChecked : Bool
  networkCalled : Bool
  errorMsg : Option String
deriving DecidableEq, Repr

/-- Translation of `handleImproveSummary` (lines 380-405): an empty summary
is rejected before `improveWithAI` is ever entered; otherwise the result of
`improveWithAI` is written back through the `summary` setter when truthy. -/
def handleImproveSummary (s : BuilderState) (now doneAt : Nat)
    (o : EnhanceOutcome) : ImproveSummaryOutput :=
  if s.doc.summary = "" then
    { state := s, limiterChecked := false, networkCalled := false
      errorMsg := some "Please enter a summary first" }
  else
    let out := improveWithAI s.lastEnhancementTime now doneAt o
    let s1 := { s with lastEnhancementTime := out.lastEnhancementTime }
    match out.result with
    | ImproveResult.improved t =>
        { state := if t ≠ "" then setSummary s1 t else s1
          limiterChecked := true, networkCalled := out.networkCalled
          errorMsg := none }
    | ImproveResult.busy _ =>
        { state := s1, limiterChecked := true
          networkCalled := out.networkCalled, errorMsg := none }
    | ImproveResult.failed m =>
        { state := s1, limiterChecked := true
          networkCalled := out.networkCalled, errorMsg := some m }

/-- Partial-field payload (`data.content`) returned by the enhancement and
upload endpoints; a field missing from the JSON object is `none`. -/
structure EnhanceContent where
  summary : Option String
  skills : Option String
  experience : Option (List Entry)
  education : Option (List Entry)
  projects : Option (List Entry)
deriving DecidableEq, Repr

/-- Truthiness-guarded overwrite of a string field:
the pattern `if (x) setValue(field, x)` of lines 460-461 and 513-514. -/
def applyStr (old : String) : Option String → String
  | some s => if s ≠ "" then s else old
  | none => old

/-- Truthiness-and-length-guarded overwrite of an entry-list field: the
pattern `if (xs && xs.length > 0) setValue(field, xs)` of lines 462-464
and 515-517. -/
def applyList (old : List Entry) : Option (List Entry) → List Entry
  | some l => if l ≠ [] then l else old
  | none => old

/-- The write-back of a partial response onto the document, common to
`handleEnhanceResume` (lines 509-517) and `handleFileUpload`
(lines 456-464). -/
def applyContent (d : DocumentState) (c : EnhanceContent) : DocumentState :=
  { d with
    summary := applyStr d.summary c.summary
    skills := applyStr d.skills c.skills
    experience := applyList d.experience c.experience
    education := applyList d.education c.education
    projects := applyList d.projects c.projects }

/-- Outcome of the whole-document enhancement request. `okNoContent` is an
ok response whose JSON lacks a truthy `content` field. -/
inductive EnhanceResumeOutcome
  | netError
  | httpError (body : String)
  | okNoContent
  | okContent (c : EnhanceContent)
deriving DecidableEq, Repr

/-- Observable output of `handleEnhanceResume` / `handleFileUpload`. -/
structure EnhanceResumeOutput where
  state : BuilderState
  networkCalled : Bool
  errorMsg : Option String
deriving DecidableEq, Repr

/-- Translation of `handleEnhanceResume` (lines 482-536): rejects when
summary, skills and experience are all empty, before any network attempt;
otherwise fetches (with no consultation of `lastEnhancementTime`), applies
a truthy `content` payload field-by-field through the setters — each
`setValue` retriggers the preview-sync effect — and then sets the
displayed text to a fresh projection unconditionally (line 520). -/
def handleEnhanceResume (s : BuilderState) (o : EnhanceResumeOutcome) :
    EnhanceResumeOutput :=
  if s.doc.summary = "" ∧ s.doc.skills = "" ∧ s.doc.experience = [] then
    { state := s, networkCalled := false
      errorMsg := some "Please add some content to your resume first" }
  else
    match o with
    | EnhanceResumeOutcome.netError =>
        { state := s, networkCalled := true, errorMsg := some "NetworkError" }
    | EnhanceResumeOutcome.httpError body =>
        { state := s, networkCalled := true
          errorMsg := some (if body = "" then "Failed to enhance resume"
            else body) }
    | EnhanceResumeOutcome.okNoContent =>
        { state := s, networkCalled := true, errorMsg := none }
    | EnhanceResumeOutcome.okContent c =>
        let d := applyContent s.doc c
        let s1 := { s with doc := d, previewContent := getCombinedContent d }
        { state := syncPreviewEffect s1, networkCalled := true
          errorMsg := none }

/-- Outcome of the upload request of `handleFileUpload`. -/
inductive UploadOutcome
  | noFile
  | netError
  | httpError (body : String)
  | okNoContent
  | okContent (c : EnhanceContent)
deriving DecidableEq, Repr

/-- Translation of `handleFileUpload` (lines 434-480): no cooldown and no
emptiness precondition; a truthy `content` payload is applied with the same
truthiness-guarded partial overwrite, and the displayed text is then set to
a fresh projection unconditionally (line 467). -/
def handleFileUpload (s : BuilderState) (o : UploadOutcome) :
    EnhanceResumeOutput :=
  match o with
  | UploadOutcome.noFile =>
      { state := s, networkCalled := false, errorMsg := none }
  | UploadOutcome.netError =>
      { state := s, networkCalled := true, errorMsg := some "NetworkError" }
  | UploadOutcome.httpError body =>
      { state := s, networkCalled := true
        errorMsg := some (if body = "" then "Failed to upload resume"
          else body) }
  | UploadOutcome.okNoContent =>
      { state := s, networkCalled := true, errorMsg := none }
  | UploadOutcome.okContent c =>
      let d := applyContent s.doc c
      let s1 := { s with doc := d, previewContent := getCombinedContent d }
      { state := syncPreviewEffect s1, networkCalled := true
        errorMsg := none }

/-- One user-visible operation on the component state, for reasoning about
operation histories. -/
inductive Op
  | setSummaryOp (v : String)
  | setSkillsOp (v : String)
  | switchTab (t : Tab)
  | improveSummaryOp (now doneAt : Nat) (o : EnhanceOutcome)
  | enhanceOp (o : EnhanceResumeOutcome)
  | uploadOp (o : UploadOutcome)

/-- Apply one operation to the component state.  Switching the tab
retriggers the preview-sync effect (the effect lists `activeTab` among its
dependencies). -/
def applyOp (s : BuilderState) : Op → BuilderState
  | Op.setSummaryOp v => setSummary s v
  | Op.setSkillsOp v => setSkills s v
  | Op.switchTab t => syncPreviewEffect { s with activeTab := t }
  | Op.improveSummaryOp now doneAt o =>
      (handleImproveSummary s now doneAt o).state
  | Op.enhanceOp o => (handleEnhanceResume s o).state
  | Op.uploadOp o => (handleFileUpload s o).state

/-- Run a list of operations left to right. -/
def runOps (s : BuilderState) : List Op → BuilderState
  | [] => s
  | op :: rest => runOps (applyOp s op) rest

/-- A fresh session state over a given initial content. -/
def initialState (initialContent : String) : BuilderState :=
  { doc := emptyDoc, previewContent := initialContent
    activeTab := Tab.edit, lastEnhancementTime := 0
    initialContent := initialContent }

/-- The structured document produced by a successful whole-document
enhancement applied to state `s` with response content `c`. -/
def enhancedDoc (s : BuilderState) (c : EnhanceContent) : DocumentState :=
  (handleEnhanceResume s (EnhanceResumeOutcome.okContent c)).state.doc

/-- Document with only the contact name set. -/
def anaDoc : DocumentState :=
  { emptyDoc with contactInfo := { emptyContact with name := "Ana" } }

/-- A sample entry used in concrete scenarios. -/
def e1 : Entry :=
  { title := "T1", subtitle := "Org", startDate := "2020", endDate := "2021"
    isCurrent := false, description := "d" }

/-- State whose last recorded successful enhancement occurred at 100000 ms
and whose document is non-empty. -/
def sC1 : BuilderState :=
  { doc := { emptyDoc with summary := "S" }, previewContent := ""
    activeTab := Tab.edit, lastEnhancementTime := 100000
    initialContent := "" }

/-- A response content replacing the summary. -/
def cC1 : EnhanceContent :=
  { summary := some "Better", skills := none, experience := none
    education := none, projects := none }

/-- A FREEFORM-mode state: the markdown tab owns the displayed text "X",
while the structured summary holds "S". -/
def sC2 : BuilderState :=
  { doc := { emptyDoc with summary := "S" }, previewContent := "X"
    activeTab := Tab.preview, lastEnhancementTime := 0
    initialContent := "" }

/-- A response content replacing the skills only. -/
def cC2 : EnhanceContent :=
  { summary := none, skills := some "K", experience := none
    education := none, projects := none }

/-- State with non-empty summary and skills. -/
def s7 : BuilderState :=
  { doc := { emptyDoc with summary := "Old summary", skills := "Old skills" }
    previewContent := "", activeTab := Tab.edit, lastEnhancementTime := 0
    initialContent := "" }

/-- A response whose summary is present but empty and whose skills are
present and non-empty. -/
def c7 : EnhanceContent :=
  { summary := some "", skills := some "New skills", experience := none
    education := none, projects := none }

/-- Document with non-empty summary, skills and an education entry. -/
def doc9 : DocumentState :=
  { emptyDoc with summary := "Sum", skills := "Sk", education := [e1] }

/-- State with non-empty summary, skills and an education entry. -/
def s9 : BuilderState :=
  { doc := doc9
    previewContent := "", activeTab := Tab.edit, lastEnhancementTime := 0
    initialContent := "" }

/-- A response in which every field is present but empty. -/
def c9e : EnhanceContent :=
  { summary := some "", skills := some "", experience := some []
    education := some [], projects := some [] }

/-- A seeded STRUCTURED-mode state whose document is entirely empty. -/
def s10 : BuilderState :=
  { doc := emptyDoc, previewContent := "old", activeTab := Tab.edit
    lastEnhancementTime := 0, initialContent := "seed" }

/-- A seeded STRUCTURED-mode state whose document is non-empty. -/
def s10b : BuilderState :=
  { doc := { emptyDoc with summary := "S" }, previewContent := "old"
    activeTab := Tab.edit, lastEnhancementTime := 0
    initialContent := "seed" }

/-! ## Helper lemmas -/

theorem syncPreviewEffect_doc (s : BuilderState) :
    (syncPreviewEffect s).doc = s.doc := by
  unfold syncPreviewEffect; split <;> rfl

theorem syncPreviewEffect_lastEnhancementTime (s : BuilderState) :
    (syncPreviewEffect s).lastEnhancementTime = s.lastEnhancementTime := by
  unfold syncPreviewEffect; split <;> rfl

theorem syncPreviewEffect_of_preview (s : BuilderState)
    (h : s.activeTab = Tab.preview) : syncPreviewEffect s = s := by
  unfold syncPreviewEffect; rw [h]; rfl

theorem handleEnhanceResume_okContent (s : BuilderState) (c : EnhanceContent)
    (hpre : ¬(s.doc.summary = "" ∧ s.doc.skills = "" ∧
      s.doc.experience = [])) :
    handleEnhanceResume s (EnhanceResumeOutcome.okContent c)
      = { state := syncPreviewEffect
            { s with doc := applyContent s.doc c
                     previewContent :=
                       getCombinedContent (applyContent s.doc c) }
          networkCalled := true, errorMsg := none } := by
  unfold handleEnhanceResume; rw [if_neg hpre]

theorem handleFileUpload_okContent (s : BuilderState) (c : EnhanceContent) :
    handleFileUpload s (UploadOutcome.okContent c)
      = { state := syncPreviewEffect
            { s with doc := applyContent s.doc c
                     previewContent :=
                       getCombinedContent (applyContent s.doc c) }
          networkCalled := true, errorMsg := none } := rfl

/-! ## Claim theorems -/

/-- C1 (amended): only the single-field improve path consults the cooldown
clock.  `improveWithAI` never reaches the collaborator within W of the
last recorded success, but `handleEnhanceResume` performs no cooldown
check at all: whenever its non-empty precondition holds it reaches the
collaborator, for every value of the cooldown clock. -/
theorem cooldown_clock_only_improve (last now doneAt : Nat)
    (o : EnhanceOutcome) (s : BuilderState) (o2 : EnhanceResumeOutcome)
    (h : now - last < W)
    (hpre : ¬(s.doc.summary = "" ∧ s.doc.skills = "" ∧
      s.doc.experience = [])) :
    (improveWithAI last now doneAt o).networkCalled = false
    ∧ (handleEnhanceResume s o2).networkCalled = true := by
  constructor
  · unfold improveWithAI
    rw [if_pos h]
  · unfold handleEnhanceResume
    rw [if_neg hpre]
    cases o2 <;> rfl

/-- C1 witness: at 20 s after a success recorded at 100000 ms, the improve
path does not reach the collaborator, while the whole-document path (which
never reads the clock) does. -/
theorem cooldown_clock_only_improve_w :
    (improveWithAI 100000 120000 120500 EnhanceOutcome.netError).networkCalled
        = false
    ∧ (handleEnhanceResume s9 EnhanceResumeOutcome.okNoContent).networkCalled
        = true :=
  cooldown_clock_only_improve 100000 120000 120500 EnhanceOutcome.netError
    s9 EnhanceResumeOutcome.okNoContent (by decide) (by decide)

/-- C1 counterexample: in state `sC1` the last recorded successful
enhancement is at 100000 ms; a whole-document enhancement issued at that
same instant — 0 ms, hence strictly within the 60 s window — still reaches
the collaborator, refuting that both request kinds consult the cooldown
clock. -/
theorem enhance_ignores_cooldown_cx :
    sC1.lastEnhancementTime = 100000
    ∧ 100000 - sC1.lastEnhancementTime < W
    ∧ (handleEnhanceResume sC1
        (EnhanceResumeOutcome.okContent cC1)).networkCalled = true := by
  decide

/-- C2 (amended): while the markdown tab owns the text (FREEFORM), field
setters update the document but leave the displayed text unchanged;
however a successful whole-document enhancement or import overwrites the
displayed text with a fresh projection regardless of the mode. -/
theorem freeform_writes (s : BuilderState) (v : String) (c : EnhanceContent)
    (h : s.activeTab = Tab.preview)
    (hpre : ¬(s.doc.summary = "" ∧ s.doc.skills = "" ∧
      s.doc.experience = [])) :
    (setSummary s v).previewContent = s.previewContent
    ∧ (setSkills s v).previewContent = s.previewContent
    ∧ (setSummary s v).doc.summary = v
    ∧ (setSkills s v).doc.skills = v
    ∧ (handleEnhanceResume s
        (EnhanceResumeOutcome.okContent c)).state.previewContent
        = getCombinedContent (applyContent s.doc c)
    ∧ (handleFileUpload s
        (UploadOutcome.okContent c)).state.previewContent
        = getCombinedContent (applyContent s.doc c) := by
  have q1 : setSummary s v = { s with doc := { s.doc with summary := v } }
      := by
    unfold setSummary
    exact syncPreviewEffect_of_preview _ h
  have q2 : setSkills s v = { s with doc := { s.doc with skills := v } }
      := by
    unfold setSkills
    exact syncPreviewEffect_of_preview _ h
  have q3 : (handleEnhanceResume s
        (EnhanceResumeOutcome.okContent c)).state
      = { s with doc := applyContent s.doc c
                 previewContent :=
                   getCombinedContent (applyContent s.doc c) } := by
    rw [handleEnhanceResume_okContent s c hpre]
    exact syncPreviewEffect_of_preview _ h
  have q4 : (handleFileUpload s (UploadOutcome.okContent c)).state
      = { s with doc := applyContent s.doc c
                 previewContent :=
                   getCombinedContent (applyContent s.doc c) } := by
    rw [handleFileUpload_okContent s c]
    exact syncPreviewEffect_of_preview _ h
  exact ⟨by rw [q1], by rw [q2], by rw [q1], by rw [q2],
    by rw [q3], by rw [q4]⟩

/-- C2 witness: in the concrete FREEFORM state `sC2`, a summary setter
leaves the displayed text untouched, while a successful enhancement
replaces it by the fresh projection. -/
theorem freeform_writes_w :
    (setSummary sC2 "T").previewContent = sC2.previewContent
    ∧ (handleEnhanceResume sC2
        (EnhanceResumeOutcome.okContent cC2)).state.previewContent
        = getCombinedContent (applyContent sC2.doc cC2) := by
  have h := freeform_writes sC2 "T" cC2 rfl (by decide)
  exact ⟨h.1, h.2.2.2.2.1⟩

/-- C2 counterexample: in FREEFORM mode with displayed text "X", a
successful whole-document enhancement changes the displayed text, refuting
that a re-projection happens only in STRUCTURED mode. -/
theorem freeform_preview_overwritten_cx :
    sC2.activeTab = Tab.preview
    ∧ (handleEnhanceResume sC2
        (EnhanceResumeOutcome.okContent cC2)).state.previewContent
        ≠ sC2.previewContent := by
  decide

/-- C3: the projection is a pure function of the structured document: any
two operation histories that lead to equal document states project to
byte-identical text, independent of call order or history. -/
theorem projection_pure (s : BuilderState) (ops1 ops2 : List Op)
    (h : (runOps s ops1).doc = (runOps s ops2).doc) :
    getCombinedContent (runOps s ops1).doc
      = getCombinedContent (runOps s ops2).doc :=
  congrArg getCombinedContent h

/-- C3 witness: two different histories reaching the same document project
identically. -/
theorem projection_pure_w :
    getCombinedContent (runOps (initialState "init")
        [Op.setSummaryOp "A"]).doc
      = getCombinedContent (runOps (initialState "init")
        [Op.switchTab Tab.preview, Op.setSummaryOp "A"]).doc :=
  projection_pure (initialState "init") [Op.setSummaryOp "A"]
    [Op.switchTab Tab.preview, Op.setSummaryOp "A"] (by decide)

/-- C4: within the cooldown window (now within W of the last success, on a
monotone clock), `improveWithAI` returns the busy result carrying the
ceiling of the remaining whole seconds — a positive number — and the
collaborator is not reached. -/
theorem improve_busy_in_window (last now doneAt : Nat) (o : EnhanceOutcome)
    (h1 : last ≤ now) (h2 : now - last < W) :
    (improveWithAI last now doneAt o).result
        = ImproveResult.busy (ceilSeconds (last + W - now))
    ∧ 0 < ceilSeconds (last + W - now)
    ∧ (improveWithAI last now doneAt o).networkCalled = false := by
  have hW : W = 60000 := rfl
  have harg : W - (now - last) = last + W - now := by omega
  have hb : improveWithAI last now doneAt o
      = { result := ImproveResult.busy (ceilSeconds (W - (now - last)))
          lastEnhancementTime := last, networkCalled := false } := by
    unfold improveWithAI
    rw [if_pos h2]
  refine ⟨?_, ?_, ?_⟩
  · rw [hb]
    show ImproveResult.busy _ = _
    rw [harg]
  · unfold ceilSeconds
    exact Nat.div_pos (by omega) (by omega)
  · rw [hb]

/-- C4 witness: 30 s into the window a call returns busy 30 and does not
reach the collaborator. -/
theorem improve_busy_in_window_w :
    (improveWithAI 0 30000 30500 EnhanceOutcome.netError).result
        = ImproveResult.busy 30
    ∧ (improveWithAI 0 30000 30500 EnhanceOutcome.netError).networkCalled
        = false := by
  have h := improve_busy_in_window 0 30000 30500 EnhanceOutcome.netError
    (by decide) (by decide)
  refine ⟨?_, h.2.2⟩
  rw [h.1]
  decide

/-- C5: the cooldown timestamp is written only on the success path: every
failing outcome of `improveWithAI` (network error, non-ok response,
rate-limited response) leaves it unchanged, and `handleEnhanceResume`
never writes it at all. -/
theorem failure_preserves_cooldown (last now doneAt : Nat)
    (o : EnhanceOutcome) (h : ∀ t, o ≠ EnhanceOutcome.ok t)
    (s : BuilderState) (o2 : EnhanceResumeOutcome) :
    (improveWithAI last now doneAt o).lastEnhancementTime = last
    ∧ (handleEnhanceResume s o2).state.lastEnhancementTime
        = s.lastEnhancementTime := by
  constructor
  · cases o with
    | ok t => exact absurd rfl (h t)
    | netError => unfold improveWithAI; split <;> rfl
    | httpError status body => unfold improveWithAI; split <;> rfl
  · unfold handleEnhanceResume
    split
    · rfl
    · cases o2 <;>
        first
          | rfl
          | exact syncPreviewEffect_lastEnhancementTime _

/-- C5 witness: a network error outside the window, and a failing
whole-document request, both leave the cooldown timestamp unchanged. -/
theorem failure_preserves_cooldown_w :
    (improveWithAI 70000 140000 140500
        EnhanceOutcome.netError).lastEnhancementTime = 70000
    ∧ (handleEnhanceResume sC1
        EnhanceResumeOutcome.netError).state.lastEnhancementTime
        = sC1.lastEnhancementTime :=
  failure_preserves_cooldown 70000 140000 140500 EnhanceOutcome.netError
    (fun _ ht => EnhanceOutcome.noConfusion ht) sC1
    EnhanceResumeOutcome.netError

/-- C6: each enhancement operation checks its non-empty precondition first:
with an empty summary, `handleImproveSummary` surfaces the empty-input
error without consulting the rate limiter or the collaborator and leaves
the state unchanged; with summary, skills and experience all empty,
`handleEnhanceResume` surfaces its empty-input error before any network
attempt and leaves the state unchanged. -/
theorem empty_input_short_circuit (s s2 : BuilderState) (now doneAt : Nat)
    (o : EnhanceOutcome) (o2 : EnhanceResumeOutcome)
    (h1 : s.doc.summary = "")
    (h2 : s2.doc.summary = "" ∧ s2.doc.skills = "" ∧
      s2.doc.experience = []) :
    (handleImproveSummary s now doneAt o).errorMsg
        = some "Please enter a summary first"
    ∧ (handleImproveSummary s now doneAt o).limiterChecked = false
    ∧ (handleImproveSummary s now doneAt o).networkCalled = false
    ∧ (handleImproveSummary s now doneAt o).state = s
    ∧ (handleEnhanceResume s2 o2).errorMsg
        = some "Please add some content to your resume first"
    ∧ (handleEnhanceResume s2 o2).networkCalled = false
    ∧ (handleEnhanceResume s2 o2).state = s2 := by
  have hi : handleImproveSummary s now doneAt o
      = { state := s, limiterChecked := false, networkCalled := false
          errorMsg := some "Please enter a summary first" } := by
    unfold handleImproveSummary
    rw [if_pos h1]
  have he : handleEnhanceResume s2 o2
      = { state := s2, networkCalled := false
          errorMsg := some "Please add some content to your resume first" }
      := by
    unfold handleEnhanceResume
    rw [if_pos h2]
  exact ⟨by rw [hi], by rw [hi], by rw [hi], by rw [hi],
    by rw [he], by rw [he], by rw [he]⟩

/-- C6 witness: on a fresh empty session, both operations short-circuit
with their empty-input errors and touch nothing. -/
theorem empty_input_short_circuit_w :
    (handleImproveSummary (initialState "x") 0 0
        EnhanceOutcome.netError).errorMsg
        = some "Please enter a summary first"
    ∧ (handleImproveSummary (initialState "x") 0 0
        EnhanceOutcome.netError).limiterChecked = false
    ∧ (handleImproveSummary (initialState "x") 0 0
        EnhanceOutcome.netError).networkCalled = false
    ∧ (handleImproveSummary (initialState "x") 0 0
        EnhanceOutcome.netError).state = initialState "x"
    ∧ (handleEnhanceResume (initialState "x")
        EnhanceResumeOutcome.netError).errorMsg
        = some "Please add some content to your resume first"
    ∧ (handleEnhanceResume (initialState "x")
        EnhanceResumeOutcome.netError).networkCalled = false
    ∧ (handleEnhanceResume (initialState "x")
        EnhanceResumeOutcome.netError).state = initialState "x" :=
  empty_input_short_circuit (initialState "x") (initialState "x") 0 0
    EnhanceOutcome.netError EnhanceResumeOutcome.netError rfl
    ⟨rfl, rfl, rfl⟩

/-- C7 (amended): for a successful whole-document enhancement, each
returned field that is present and non-empty overwrites the corresponding
document field; a field that is absent, or present but empty, is left
untouched, and the contact info is never touched. -/
theorem enhance_partial_update (s : BuilderState) (c : EnhanceContent)
    (hpre : ¬(s.doc.summary = "" ∧ s.doc.skills = "" ∧
      s.doc.experience = [])) :
    (∀ t, c.summary = some t → t ≠ "" → (enhancedDoc s c).summary = t)
    ∧ (c.summary = none ∨ c.summary = some "" →
        (enhancedDoc s c).summary = s.doc.summary)
    ∧ (∀ t, c.skills = some t → t ≠ "" → (enhancedDoc s c).skills = t)
    ∧ (c.skills = none ∨ c.skills = some "" →
        (enhancedDoc s c).skills = s.doc.skills)
    ∧ (∀ l, c.experience = some l → l ≠ [] →
        (enhancedDoc s c).experience = l)
    ∧ (c.experience = none ∨ c.experience = some [] →
        (enhancedDoc s c).experience = s.doc.experience)
    ∧ (∀ l, c.education = some l → l ≠ [] →
        (enhancedDoc s c).education = l)
    ∧ (c.education = none ∨ c.education = some [] →
        (enhancedDoc s c).education = s.doc.education)
    ∧ (∀ l, c.projects = some l → l ≠ [] →
        (enhancedDoc s c).projects = l)
    ∧ (c.projects = none ∨ c.projects = some [] →
        (enhancedDoc s c).projects = s.doc.projects)
    ∧ (enhancedDoc s c).contactInfo = s.doc.contactInfo := by
  have hd : enhancedDoc s c = applyContent s.doc c := by
    unfold enhancedDoc
    rw [handleEnhanceResume_okContent s c hpre]
    exact syncPreviewEffect_doc _
  rw [hd]
  refine ⟨?_, ?_, ?_, ?_, ?_, ?_, ?_, ?_, ?_, ?_, rfl⟩
  · intro t ht hne; simp [applyContent, applyStr, ht, hne]
  · intro h; rcases h with h | h <;> simp [applyContent, applyStr, h]
  · intro t ht hne; simp [applyContent, applyStr, ht, hne]
  · intro h; rcases h with h | h <;> simp [applyContent, applyStr, h]
  · intro l hl hne; simp [applyContent, applyList, hl, hne]
  · intro h; rcases h with h | h <;> simp [applyContent, applyList, h]
  · intro l hl hne; simp [applyContent, applyList, hl, hne]
  · intro h; rcases h with h | h <;> simp [applyContent, applyList, h]
  · intro l hl hne; simp [applyContent, applyList, hl, hne]
  · intro h; rcases h with h | h <;> simp [applyContent, applyList, h]

/-- C7 witness: on `s7` and `c7`, the present non-empty skills overwrite,
the present-but-empty summary is kept, the absent experience is kept, and
the contact info is untouched. -/
theorem enhance_partial_update_w :
    (enhancedDoc s7 c7).skills = "New skills"
    ∧ (enhancedDoc s7 c7).summary = s7.doc.summary
    ∧ (enhancedDoc s7 c7).experience = s7.doc.experience
    ∧ (enhancedDoc s7 c7).contactInfo = s7.doc.contactInfo := by
  have h := enhance_partial_update s7 c7 (by decide)
  exact ⟨h.2.2.1 "New skills" rfl (by decide), h.2.1 (Or.inr rfl),
    h.2.2.2.2.2.1 (Or.inl rfl), h.2.2.2.2.2.2.2.2.2.2⟩

/-- C7 counterexample: in response `c7` the summary field is present (as
the empty string) yet the document keeps its old summary "Old summary",
while the present non-empty skills field is overwritten — so it is not
true that exactly the present fields overwrite. -/
theorem empty_present_overwrites_cx :
    c7.summary = some ""
    ∧ (handleEnhanceResume s7
        (EnhanceResumeOutcome.okContent c7)).state.doc.summary
        = "Old summary"
    ∧ (handleEnhanceResume s7
        (EnhanceResumeOutcome.okContent c7)).state.doc.skills
        = "New skills"
    ∧ "Old summary" ≠ "" := by
  decide

/-- C8: a document whose only non-empty field is the contact name "Ana"
projects to exactly the contact section and nothing else — no stray
separators. -/
theorem project_only_name_ana :
    getCombinedContent anaDoc = "## Contact Information\n\n**Ana**" := by
  decide

/-- C9: for both the whole-document enhancement and the file upload, a
response field that is present but empty (empty string or empty list)
never overwrites the existing document value. -/
theorem empty_field_never_overwrites (s : BuilderState)
    (c : EnhanceContent) :
    (c.summary = some "" →
      (handleEnhanceResume s
          (EnhanceResumeOutcome.okContent c)).state.doc.summary
          = s.doc.summary
      ∧ (handleFileUpload s
          (UploadOutcome.okContent c)).state.doc.summary = s.doc.summary)
    ∧ (c.skills = some "" →
      (handleEnhanceResume s
          (EnhanceResumeOutcome.okContent c)).state.doc.skills
          = s.doc.skills
      ∧ (handleFileUpload s
          (UploadOutcome.okContent c)).state.doc.skills = s.doc.skills)
    ∧ (c.experience = some [] →
      (handleEnhanceResume s
          (EnhanceResumeOutcome.okContent c)).state.doc.experience
          = s.doc.experience
      ∧ (handleFileUpload s
          (UploadOutcome.okContent c)).state.doc.experience
          = s.doc.experience)
    ∧ (c.education = some [] →
      (handleEnhanceResume s
          (EnhanceResumeOutcome.okContent c)).state.doc.education
          = s.doc.education
      ∧ (handleFileUpload s
          (UploadOutcome.okContent c)).state.doc.education
          = s.doc.education)
    ∧ (c.projects = some [] →
      (handleEnhanceResume s
          (EnhanceResumeOutcome.okContent c)).state.doc.projects
          = s.doc.projects
      ∧ (handleFileUpload s
          (UploadOutcome.okContent c)).state.doc.projects
          = s.doc.projects) := by
  have hup : (handleFileUpload s (UploadOutcome.okContent c)).state.doc
      = applyContent s.doc c := by
    rw [handleFileUpload_okContent s c]
    exact syncPreviewEffect_doc _
  have hen : (handleEnhanceResume s
        (EnhanceResumeOutcome.okContent c)).state.doc = applyContent s.doc c
      ∨ (handleEnhanceResume s
        (EnhanceResumeOutcome.okContent c)).state.doc = s.doc := by
    by_cases hpre : (s.doc.summary = "" ∧ s.doc.skills = "" ∧
        s.doc.experience = [])
    · right
      unfold handleEnhanceResume
      rw [if_pos hpre]
    · left
      rw [handleEnhanceResume_okContent s c hpre]
      exact syncPreviewEffect_doc _
  refine ⟨fun h => ⟨?_, ?_⟩, fun h => ⟨?_, ?_⟩, fun h => ⟨?_, ?_⟩,
    fun h => ⟨?_, ?_⟩, fun h => ⟨?_, ?_⟩⟩ <;>
    first
      | (rcases hen with he | he <;> rw [he] <;>
          simp [applyContent, applyStr, applyList, h])
      | (rw [hup]; simp [applyContent, applyStr, applyList, h])

/-- C9 witness: on `s9` and the all-present-but-empty response `c9e`, every
document field survives both operations unchanged. -/
theorem empty_field_never_overwrites_w :
    (handleEnhanceResume s9
        (EnhanceResumeOutcome.okContent c9e)).state.doc.summary
        = s9.doc.summary
    ∧ (handleFileUpload s9
        (UploadOutcome.okContent c9e)).state.doc.summary = s9.doc.summary
    ∧ (handleEnhanceResume s9
        (EnhanceResumeOutcome.okContent c9e)).state.doc.education
        = s9.doc.education
    ∧ (handleFileUpload s9
        (UploadOutcome.okContent c9e)).state.doc.education
        = s9.doc.education := by
  have h := empty_field_never_overwrites s9 c9e
  exact ⟨(h.1 rfl).1, (h.1 rfl).2, (h.2.2.2.1 rfl).1, (h.2.2.2.1 rfl).2⟩

/-- C10: in STRUCTURED mode with a non-empty seeded initial content, the
preview-sync effect falls back to the initial content when the projection
is empty, and installs the fresh projection exactly when it is
non-empty. -/
theorem empty_projection_fallback (s : BuilderState)
    (ht : s.activeTab = Tab.edit) (_hinit : s.initialContent ≠ "") :
    (getCombinedContent s.doc = "" →
      (syncPreviewEffect s).previewContent = s.initialContent)
    ∧ (getCombinedContent s.doc ≠ "" →
      (syncPreviewEffect s).previewContent = getCombinedContent s.doc) := by
  constructor
  · intro h
    simp [syncPreviewEffect, ht, h]
  · intro h
    simp [syncPreviewEffect, ht, h]

/-- C10 witness: on the empty document the effect restores the seed text;
on a non-empty document it installs the projection. -/
theorem empty_projection_fallback_w :
    (syncPreviewEffect s10).previewContent = s10.initialContent
    ∧ (syncPreviewEffect s10b).previewContent
        = getCombinedContent s10b.doc :=
  ⟨(empty_projection_fallback s10 rfl (by decide)).1 (by decide),
    (empty_projection_fallback s10b rfl (by decide)).2 (by decide)⟩

end ResumeBuilder
